import Mathlib

/-!
Shallow embedding of `src/video_downloader.py` (IsrakAhmed/VideoDownloader).

We model the parts of the program the specification talks about:
the progress-normalisation hook (`VideoDownloaderApp.progress_hook`),
the error classifiers (`is_not_found_error`, `is_auth_required_error`),
the cookie retry policy of the worker threads (`PreviewThread.run`,
`DownloadThread.run`), playlist recognition (`handle_preview_info`,
`download_video`) and thumbnail selection (`get_best_thumbnail`).
External collaborators (yt-dlp, the filesystem, Qt signals) are modelled
as explicit inputs and explicit output traces.
-/

/- ### Python string primitives used by the source -/

/-- Python whitespace, for `str.strip()`. -/
def pySpace (c : Char) : Bool :=
  c = ' ' || c = '\t' || c = '\n' || c = '\r' || c = '\x0b' || c = '\x0c'

/-- Python `str.strip()` on a character list. -/
def pyStripList (l : List Char) : List Char :=
  ((l.dropWhile pySpace).reverse.dropWhile pySpace).reverse

/-- Python `str.lower()` (the source only ever lowers ASCII messages). -/
def pyLower (s : String) : String :=
  ⟨s.toList.map Char.toLower⟩

def startsWithList : List Char → List Char → Bool
  | [], _ => true
  | _ :: _, [] => false
  | p :: ps, c :: cs => p == c && startsWithList ps cs

def containsSub (pat : List Char) : List Char → Bool
  | [] => pat.isEmpty
  | c :: cs => startsWithList pat (c :: cs) || containsSub pat cs

/-- Python substring test `pat in s`. -/
def strContains (s pat : String) : Bool := containsSub pat.toList s.toList

/-- Python `str.replace('i', 'iB')` from line 557 of the source. -/
def replace_i : List Char → List Char
  | [] => []
  | c :: cs => if c = 'i' then 'i' :: 'B' :: replace_i cs else c :: replace_i cs

/- ### `clean_ansi_codes` (source lines 328-334)

The source removes every match of the regular expression
ESC followed by either a single byte in 0x40-0x5A or 0x5C-0x5F, or by
a bracket, zero or more parameter bytes, zero or more intermediate
bytes and one final byte. -/

/-- CSI parameter byte, the regex class of bytes 0x30 to 0x3F. -/
def isCSIParam (c : Char) : Bool := '0' ≤ c && c ≤ '?'

/-- CSI intermediate byte, the regex class of bytes 0x20 to 0x2F. -/
def isCSIInter (c : Char) : Bool := ' ' ≤ c && c ≤ '/'

/-- CSI final byte, the regex class of bytes 0x40 to 0x7E. -/
def isCSIFinal (c : Char) : Bool := '@' ≤ c && c ≤ '~'

/-- The single-byte escape class: bytes 0x40 to 0x5A or 0x5C to 0x5F. -/
def isEscSingle (c : Char) : Bool := ('@' ≤ c && c ≤ 'Z') || ('\\' ≤ c && c ≤ '_')

/-- Match parameter bytes, then intermediate bytes, then one final byte at
the front of the list; on success return the remainder after the final
byte.  The three character classes are pairwise disjoint, so greedy
matching is exact. -/
def matchCSI (l : List Char) : Option (List Char) :=
  match (l.dropWhile isCSIParam).dropWhile isCSIInter with
  | [] => none
  | c :: cs => if isCSIFinal c then some cs else none

/-- One left-to-right `re.sub` pass deleting every match.  Every recursive
call strictly shortens the list, so fuel `length + 1` is never exhausted. -/
def cleanAnsiAux : Nat → List Char → List Char
  | 0, l => l
  | _ + 1, [] => []
  | fuel + 1, c :: cs =>
    if c = '\x1B' then
      match cs with
      | '[' :: rest =>
        match matchCSI rest with
        | some rem => cleanAnsiAux fuel rem
        | none => c :: cleanAnsiAux fuel cs
      | d :: rest => if isEscSingle d then cleanAnsiAux fuel rest else c :: cleanAnsiAux fuel cs
      | [] => [c]
    else c :: cleanAnsiAux fuel cs

/-- Embeds `VideoDownloaderApp.clean_ansi_codes` (lines 328-334). -/
def clean_ansi_codes (s : String) : String :=
  ⟨cleanAnsiAux (s.toList.length + 1) s.toList⟩

/- ### The progress hook (`VideoDownloaderApp.progress_hook`, lines 553-569) -/

/-- The outcome of Python `float(...)` on the cleaned, `%`-stripped
percentage text of a raw yt-dlp progress dictionary: `parsed q` when the
conversion succeeds, `invalid raw` when it raises `ValueError` (carrying
the raw text, which line 565 echoes back to the user). -/
inductive PercentField where
  | parsed (q : ℚ)
  | invalid (raw : String)
  deriving DecidableEq

/-- A raw yt-dlp progress dictionary, restricted to the keys the hook
reads: `status`, `_percent_str` (already reduced to its parse outcome,
see `PercentField`) and `_speed_str` (`none` when the key is absent, in
which case line 557 substitutes `'Unknown speed'`). -/
structure RawEvent where
  status : String
  percent : PercentField
  speedRaw : Option String
  deriving DecidableEq

/-- The speed text pipeline of line 557:
`clean_ansi_codes(d.get('_speed_str', 'Unknown speed')).replace('i', 'iB').strip()`. -/
def processSpeed (speedRaw : Option String) : String :=
  ⟨pyStripList (replace_i (clean_ansi_codes (speedRaw.getD ("Unknown speed"))).toList)⟩

/-- A UI update appended by the hook to the status log / progress bar. -/
inductive Update where
  | progress (percent : ℚ) (speed : String)
  | invalidFormat (raw : String) (speed : String)
  | finishedNote
  deriving DecidableEq

/-- Embeds `VideoDownloaderApp.progress_hook` (lines 553-569): given the retained
`self.last_percentage` and one raw event, produce the new retained value
and the emitted update, if any.  Comparisons are over `ℚ`, embedding the
source's float comparison `percentage >= self.last_percentage + 0.1`. -/
def progress_hook (last : ℚ) (d : RawEvent) : ℚ × Option Update :=
  if d.status = "downloading" then
    let speed := processSpeed d.speedRaw
    match d.percent with
    | .parsed percentage =>
      if last + 1/10 ≤ percentage ∨ speed ≠ "Unknown speed" then
        (percentage, some (.progress percentage speed))
      else (last, none)
    | .invalid raw => (last, some (.invalidFormat raw speed))
  else if d.status = "finished" then (last, some .finishedNote)
  else (last, none)

/-- Feed a list of raw events through the hook, collecting the emitted
updates and the final retained percentage. -/
def runHook : ℚ → List RawEvent → ℚ × List Update
  | last, [] => (last, [])
  | last, d :: ds =>
    let step := progress_hook last d
    let rest := runHook step.1 ds
    (rest.1, step.2.toList ++ rest.2)

/-- Source `self.last_percentage = -1` in `__init__` (line 121). -/
def init_last_percentage : ℚ := -1

/-- Source `self.last_percentage = -1` in `download_video` (line 540), run each
time a new download task starts. -/
def download_start_last_percentage : ℚ := -1

/- ### Error classifier (lines 343-362) -/

/-- The fixed keyword list of `is_not_found_error` (lines 346-351). -/
def not_found_keywords : List String :=
  ["video unavailable", "not found", "content not available",
   "video does not exist", "playlist does not exist", "removed",
   "private video", "unavailable video", "not available",
   "sign in", "login required"]

/-- Embeds `VideoDownloaderApp.is_not_found_error` (lines 343-354). -/
def is_not_found_error (error : String) : Bool :=
  not_found_keywords.any (fun keyword => strContains (pyLower error) keyword)

/-- Embeds `VideoDownloaderApp.is_auth_required_error` (lines 356-362). -/
def is_auth_required_error (error : String) : Bool :=
  strContains (pyLower error) "sign in" || strContains (pyLower error) "login required"

/-- The user-facing classification of an error message. -/
inductive ErrorKind where
  | notFound (authRequired : Bool)
  | generic
  deriving DecidableEq

/-- The classification performed by `handle_preview_error` (lines 456-473)
and `handle_error` (lines 571-584): a not-found-shaped message, augmented
with the cookies remediation hint when the auth sub-check also fires,
and a generic message otherwise. -/
def classify (error : String) : ErrorKind :=
  if is_not_found_error error then .notFound (is_auth_required_error error) else .generic

/- ### Worker threads: retry policy and signal traces (lines 29-115)

The yt-dlp calls are external; each attempt is modelled by its observable
outcome, given as an input to the embedded `run` methods.  The emitted Qt
signals are collected into a trace, paired with the number of yt-dlp
invocations actually performed. -/

/-- Outcome of one yt-dlp invocation: a value, or an exception message. -/
inductive Outcome (α : Type) where
  | ok (val : α)
  | exn (msg : String)
  deriving DecidableEq

/-- One playlist entry as read by the controller (`title`, `url`). -/
structure Entry where
  title : Option String
  url : Option String
  deriving DecidableEq

/-- An extraction-result dictionary, restricted to the keys the program
reads for playlist recognition: `info.get('_type')`, whether the key
`'entries'` is present, `info['entries']`, and `info.get('title')`. -/
structure Info where
  title : Option String
  typ : Option String
  hasEntries : Bool
  entries : List Entry
  deriving DecidableEq

/-- The retry guard of lines 50 and 99:
`platform == "YouTube" and ("sign in" in error_str or ("login required") in
error_str) and os.path.exists('cookies.txt')`, where `error_str` is the
lower-cased exception message and the cookie-file existence check is an
input. -/
def retry_condition (platform : String) (errMsg : String) (cookiesExist : Bool) : Bool :=
  platform == "YouTube"
    && (strContains (pyLower errMsg) "sign in" || strContains (pyLower errMsg) "login required")
    && cookiesExist

/-- A signal emitted by `PreviewThread`. -/
inductive PSignal where
  | info (i : Info)
  | error (msg : String)
  deriving DecidableEq

/-- The terminal signal produced by one extraction attempt. -/
def previewTerminal (res : Outcome Info) : PSignal :=
  match res with
  | .ok i => .info i
  | .exn m => .error m

namespace PreviewThread

/-- Embeds `PreviewThread.run` (lines 38-60): try `extract_info`; on an exception,
if the retry guard holds, run the cookie-configured attempt and emit its
outcome as final, otherwise emit the first exception.  `first` and
`second` are the outcomes the two possible yt-dlp invocations would have;
the second component counts the invocations performed. -/
def run (platform : String) (cookiesExist : Bool) (first second : Outcome Info) :
    List PSignal × Nat :=
  match first with
  | .ok i => ([.info i], 1)
  | .exn m =>
    if retry_condition platform m cookiesExist then ([previewTerminal second], 2)
    else ([.error m], 1)

end PreviewThread

/-- The observable behaviour of one `ydl.download` invocation: the raw
progress dictionaries it feeds to the hook, then either a normal return
(`failMsg = none`) or an exception with the given message. -/
structure DlBehavior where
  events : List RawEvent
  failMsg : Option String
  deriving DecidableEq

/-- A signal emitted by `DownloadThread`. -/
inductive DSignal where
  | progress (d : RawEvent)
  | finished
  | error (msg : String)
  deriving DecidableEq

/-- The message of the `FileNotFoundError` raised on line 79 when the
muxing executable is absent: the FatalPrecondition failure. -/
def ffmpeg_missing_msg : String := "ffmpeg.exe is required but not found."

/-- The trace of one `ydl.download` attempt: its progress signals followed
by `finished` on return or `error` on exception. -/
def dlTrace (b : DlBehavior) : List DSignal :=
  b.events.map .progress ++
    (match b.failMsg with
     | none => [.finished]
     | some m => [.error m])

namespace DownloadThread

/-- Embeds `DownloadThread.run` (lines 74-109): check the ffmpeg precondition
(raising before any yt-dlp call when it fails), then try `ydl.download`;
on an exception, if the retry guard holds, run the cookie-configured
attempt and emit its outcome, otherwise emit the first exception.
Returns the signal trace and the number of `ydl.download` invocations.
When the ffmpeg check raised, the retry branch would rebind the unbound
`ydl_opts` and crash the worker without emitting; that branch is dead
because the ffmpeg message matches no auth phrase (see
`retry_condition_ffmpeg_false`). -/
def run (ffmpegExists : Bool) (platform : String) (cookiesExist : Bool)
    (first second : DlBehavior) : List DSignal × Nat :=
  if !ffmpegExists then
    if retry_condition platform ffmpeg_missing_msg cookiesExist then ([], 0)
    else ([.error ffmpeg_missing_msg], 0)
  else
    match first.failMsg with
    | none => (first.events.map .progress ++ [.finished], 1)
    | some m =>
      if retry_condition platform m cookiesExist then
        (first.events.map .progress ++ dlTrace second, 2)
      else (first.events.map .progress ++ [.error m], 1)

end DownloadThread

/-- The retry guard never fires on the ffmpeg-missing message: it contains
no auth phrase. -/
theorem retry_condition_ffmpeg_false (platform : String) (cookiesExist : Bool) :
    retry_condition platform ffmpeg_missing_msg cookiesExist = false := by
  have h : (strContains (pyLower ffmpeg_missing_msg) "sign in"
      || strContains (pyLower ffmpeg_missing_msg) "login required") = false := by decide
  simp [retry_condition, h]

/- ### Playlist recognition (lines 422-447 and 527-536) -/

/-- Whether `handle_preview_info` took the playlist branch. -/
inductive PreviewMode where
  | playlist
  | single
  deriving DecidableEq

/-- The controller state retained by `handle_preview_info` that
`download_video` later consults: the branch taken and the length of
`self.video_info`. -/
structure PreviewState where
  mode : PreviewMode
  video_info_len : Nat
  deriving DecidableEq

/-- Embeds `VideoDownloaderApp.handle_preview_info` (lines 422-447), restricted
to the collection decision: the playlist branch is taken iff
`platform == "YouTube" and 'entries' in info and info.get('_type') ==
'playlist'` (line 430); it stores `info['entries']` as `self.video_info`,
while the other branch stores the one-element list `[info]`. -/
def handle_preview_info (platform : String) (info : Info) : PreviewState :=
  if platform == "YouTube" && info.hasEntries && (info.typ == some ("playlist")) then
    ⟨.playlist, info.entries.length⟩
  else
    ⟨.single, 1⟩

/-- The `is_playlist` decision of `download_video` (line 528):
`platform == "YouTube" and len(self.video_info) > 1`. -/
def download_video_is_playlist (platform : String) (st : PreviewState) : Bool :=
  platform == "YouTube" && decide (st.video_info_len > 1)

/-- Modelled from the spec: "A Collection is recognized only when the
platform supports multi-item sources and the extraction result is
explicitly flagged as such" — the multi-item platform is YouTube and the
explicit flag is the extraction result's `_type == 'playlist'` marker.
Stated from the spec's words, to be compared with the code's decisions. -/
def spec_isCollection (platform : String) (info : Info) : Bool :=
  platform == "YouTube" && (info.typ == some ("playlist"))

/- ### Thumbnail selection (`get_best_thumbnail`, lines 376-386) -/

/-- One element of `info['thumbnails']`: `x.get('url')` and
`x.get('height', 0)`. -/
structure Thumb where
  url : Option String
  height : Option ℤ
  deriving DecidableEq

/-- An extraction result restricted to the keys `get_best_thumbnail`
reads: `thumbnails` is `some l` when the key is present with a list
value, `none` when absent or not a list; `thumbnail` is
`info.get('thumbnail')`. -/
structure TInfo where
  thumbnails : Option (List Thumb)
  thumbnail : Option String
  deriving DecidableEq

/-- The sort key of line 381: `x.get('height', 0)`. -/
def thumbKey (t : Thumb) : ℤ := t.height.getD 0

/-- The descending comparison used by `sorted(..., reverse=True)`. -/
def thumbGE (a b : Thumb) : Prop := thumbKey b ≤ thumbKey a

instance : DecidableRel thumbGE :=
  fun a b => inferInstanceAs (Decidable (thumbKey b ≤ thumbKey a))

instance : IsTotal Thumb thumbGE :=
  ⟨fun a b => le_total (thumbKey b) (thumbKey a)⟩

instance : IsTrans Thumb thumbGE :=
  ⟨fun _ _ _ hab hbc => le_trans hbc hab⟩

/-- Embeds `VideoDownloaderApp.get_best_thumbnail` (lines 376-386): `none` for a
falsy `info`; with a non-empty `thumbnails` list, the `url` of the head
of the stable descending sort by height (Python's stable
`sorted(..., key=height, reverse=True)[0]`, embedded as Mathlib's stable
insertion sort); otherwise `info.get('thumbnail')`. -/
def get_best_thumbnail (info : Option TInfo) : Option String :=
  match info with
  | none => none
  | some i =>
    match i.thumbnails with
    | some (t :: ts) =>
      match List.insertionSort thumbGE (t :: ts) with
      | [] => none
      | best :: _ => best.url
    | _ => i.thumbnail

/- ## Theorems -/

/- ### Helper evaluation lemmas for the progress hook -/

theorem progress_hook_downloading_eq (last p : ℚ) (spd : Option String) :
    progress_hook last ⟨"downloading", .parsed p, spd⟩ =
      if last + 1/10 ≤ p ∨ processSpeed spd ≠ "Unknown speed" then
        (p, some (.progress p (processSpeed spd)))
      else (last, none) := by
  rfl

theorem progress_hook_downloading_pos (last p : ℚ) (spd : Option String)
    (h : last + 1/10 ≤ p ∨ processSpeed spd ≠ "Unknown speed") :
    progress_hook last ⟨"downloading", .parsed p, spd⟩ =
      (p, some (.progress p (processSpeed spd))) := by
  rw [progress_hook_downloading_eq, if_pos h]

theorem progress_hook_downloading_neg (last p : ℚ) (spd : Option String)
    (h1 : ¬ last + 1/10 ≤ p) (h2 : processSpeed spd = "Unknown speed") :
    progress_hook last ⟨"downloading", .parsed p, spd⟩ = (last, none) := by
  rw [progress_hook_downloading_eq, if_neg]
  rintro (hc | hc)
  · exact h1 hc
  · exact hc h2

/-- An event whose processed speed is the unknown sentinel can only move
the retained percentage up. -/
theorem progress_hook_mono (last : ℚ) (e : RawEvent)
    (h : processSpeed e.speedRaw = "Unknown speed") :
    last ≤ (progress_hook last e).1 := by
  obtain ⟨st, pf, spd⟩ := e
  simp only at h
  by_cases hst : st = "downloading"
  · subst hst
    cases pf with
    | parsed p =>
      by_cases hc : last + 1/10 ≤ p ∨ processSpeed spd ≠ "Unknown speed"
      · rw [progress_hook_downloading_pos last p spd hc]
        rcases hc with hc | hc
        · linarith
        · exact absurd h hc
      · push_neg at hc
        rw [progress_hook_downloading_neg last p spd (not_le.mpr hc.1) hc.2]
    | invalid raw => simp [progress_hook]
  · simp only [progress_hook, if_neg hst]
    split <;> simp

theorem runHook_cons_fst (last : ℚ) (e : RawEvent) (es : List RawEvent) :
    (runHook last (e :: es)).1 = (runHook (progress_hook last e).1 es).1 := by
  simp [runHook]

/-- Over events whose processed speed is the unknown sentinel, the
retained percentage is monotone non-decreasing. -/
theorem runHook_mono (es : List RawEvent)
    (h : ∀ e ∈ es, processSpeed e.speedRaw = "Unknown speed") :
    ∀ last : ℚ, last ≤ (runHook last es).1 := by
  induction es with
  | nil => intro last; simp [runHook]
  | cons e es ih =>
    intro last
    have h1 := progress_hook_mono last e (h e (List.mem_cons_self e es))
    have h2 := ih (fun x hx => h x (List.mem_cons_of_mem e hx)) (progress_hook last e).1
    rw [runHook_cons_fst]
    exact le_trans h1 h2

/- ### C1 -/

/-- Claim C1: for a raw ("downloading") progress event, if the (escape-
stripped) percentage text parses as a float `p`, an update is emitted iff
`p >= last + 0.1` or the processed speed text is not the unknown
sentinel; on emission the retained percentage becomes `p`, otherwise the
state is unchanged. If the text does not parse, an invalid-tagged update
is still emitted and the retained percentage is unchanged. -/
theorem C1_progress_hook_emission (last : ℚ) (pf : PercentField) (spd : Option String) :
    (∀ p, pf = .parsed p →
      ((progress_hook last ⟨"downloading", pf, spd⟩).2 ≠ none ↔
        (last + 1/10 ≤ p ∨ processSpeed spd ≠ "Unknown speed"))
      ∧ ((last + 1/10 ≤ p ∨ processSpeed spd ≠ "Unknown speed") →
          (progress_hook last ⟨"downloading", pf, spd⟩).1 = p)
      ∧ (¬(last + 1/10 ≤ p ∨ processSpeed spd ≠ "Unknown speed") →
          progress_hook last ⟨"downloading", pf, spd⟩ = (last, none)))
    ∧ (∀ raw, pf = .invalid raw →
        progress_hook last ⟨"downloading", pf, spd⟩ =
          (last, some (.invalidFormat raw (processSpeed spd)))) := by
  constructor
  · rintro p rfl
    refine ⟨⟨?_, ?_⟩, ?_, ?_⟩
    · intro hne
      by_contra hc
      push_neg at hc
      rw [progress_hook_downloading_neg last p spd (not_le.mpr hc.1) hc.2] at hne
      exact hne rfl
    · intro hc
      rw [progress_hook_downloading_pos last p spd hc]
      simp
    · intro hc
      rw [progress_hook_downloading_pos last p spd hc]
    · intro hc
      push_neg at hc
      rw [progress_hook_downloading_neg last p spd (not_le.mpr hc.1) hc.2]
  · rintro raw rfl
    simp [progress_hook]

theorem C1_progress_hook_emission_witness :
    (progress_hook 0 ⟨"downloading", .parsed 5, none⟩).2 ≠ none ∧
    progress_hook 0 ⟨"downloading", .invalid ("N/A"), none⟩ =
      (0, some (.invalidFormat ("N/A") "Unknown speed")) := by
  constructor
  · exact ((C1_progress_hook_emission 0 (.parsed 5) none).1 5 rfl).1.mpr
      (Or.inl (by norm_num))
  · have h := (C1_progress_hook_emission 0 (.invalid ("N/A")) none).2 ("N/A") rfl
    rw [h]
    have hs : processSpeed none = "Unknown speed" := by decide
    rw [hs]

/- ### C2 -/

/-- Claim C2 is false on the code: with a known (non-sentinel) speed text
the emission guard `percent >= last + 0.1 OR speed != "Unknown speed"`
holds for every event, so the second of two close events (10.05 then
10.12, delta 0.07) is also emitted, not just the first. -/
theorem C2_counterexample :
    (runHook (-1) [⟨"downloading", .parsed (201/20), some ("1.00MiB/s")⟩,
                   ⟨"downloading", .parsed (253/25), some ("1.00MiB/s")⟩]).2.length = 2 := by
  have hs : processSpeed (some ("1.00MiB/s")) = "1.00MiBB/s" := by decide
  have hne : ("1.00MiBB/s" : String) ≠ "Unknown speed" := by decide
  have e1 := progress_hook_downloading_pos (-1) (201/20) (some ("1.00MiB/s"))
    (Or.inr (hs ▸ hne))
  have e2 := progress_hook_downloading_pos (201/20) (253/25) (some ("1.00MiB/s"))
    (Or.inr (hs ▸ hne))
  simp [runHook, e1, e2]

/-- Claim C2 amended: for a fresh download task, two consecutive
"downloading" events with valid percentages 10.05 then 10.12 (delta
0.07 < 0.1) whose speed text is the unknown sentinel produce only one
emitted update (the first), and a following event with percentage 25.0
produces an emitted update. -/
theorem C2_amended :
    (runHook (-1) [⟨"downloading", .parsed (201/20), none⟩,
                   ⟨"downloading", .parsed (253/25), none⟩,
                   ⟨"downloading", .parsed 25, none⟩]).2 =
      [.progress (201/20) "Unknown speed", .progress 25 ("Unknown speed")] := by
  have hs : processSpeed none = "Unknown speed" := by decide
  have e1 := progress_hook_downloading_pos (-1) (201/20) none (Or.inl (by norm_num))
  have e2 := progress_hook_downloading_neg (201/20) (253/25) none (by norm_num) hs
  have e3 := progress_hook_downloading_pos (201/20) 25 none (Or.inl (by norm_num))
  simp [runHook, e1, e2, e3, hs]

/- ### C3 -/

/-- Claim C3 is false on the code: within one task started from the reset
sentinel -1, an event with a known speed and a lower percentage pulls the
retained last-percent down (50 to 10 here), so the retained value is not
monotone non-decreasing. -/
theorem C3_counterexample :
    (runHook (-1) [⟨"downloading", .parsed 50, none⟩,
                   ⟨"downloading", .parsed 10, some ("1.00MiB/s")⟩]).1 <
      (runHook (-1) [⟨"downloading", .parsed 50, none⟩]).1 := by
  have e1 := progress_hook_downloading_pos (-1) 50 none (Or.inl (by norm_num))
  have e2 := progress_hook_downloading_pos 50 10 (some ("1.00MiB/s")) (Or.inr (by decide))
  simp only [runHook, e1, e2]
  norm_num

/-- Claim C3 amended: the retained last-percent never decreases across
any sequence of ingested events whose processed speed text is the
unknown sentinel (over events with a known speed it can decrease, see
the counterexample), and each new download task resets it to -1, the
same initial sentinel set at construction. -/
theorem C3_amended (es : List RawEvent)
    (h : ∀ e ∈ es, processSpeed e.speedRaw = "Unknown speed") (last : ℚ) :
    last ≤ (runHook last es).1 ∧ download_start_last_percentage = init_last_percentage :=
  ⟨runHook_mono es h last, rfl⟩

theorem C3_amended_witness :
    (-1 : ℚ) ≤ (runHook (-1) [⟨"downloading", .parsed 50, none⟩]).1 ∧
    download_start_last_percentage = init_last_percentage :=
  C3_amended [⟨"downloading", .parsed 50, none⟩]
    (by
      intro e he
      rw [List.mem_singleton] at he
      subst he
      decide) (-1)

/- ### C4 -/

/-- The retry guard is exactly: primary platform, AuthRequired
classification of the first error, and the cookie artifact present. -/
theorem retry_condition_iff (platform m : String) (c : Bool) :
    retry_condition platform m c = true ↔
      (platform = "YouTube" ∧ is_auth_required_error m = true ∧ c = true) := by
  simp [retry_condition, is_auth_required_error, and_assoc]

/-- Claim C4: for a failing operation, the second (cookie-configured)
invocation happens, exactly once, with its outcome returned as final, iff
the platform is YouTube, the first error classifies as AuthRequired and
the cookie artifact exists; in every other case the first failure is
emitted unchanged after one invocation; and no run ever performs more
than two invocations.  Stated for both the preview and the download
worker. -/
theorem C4_retry_policy (platform : String) (cookies : Bool) (m : String)
    (second : Outcome Info) (fd sd : DlBehavior) (m2 : String)
    (hfd : fd.failMsg = some m2) :
    (PreviewThread.run platform cookies (.exn m) second = ([previewTerminal second], 2) ↔
      (platform = "YouTube" ∧ is_auth_required_error m = true ∧ cookies = true))
    ∧ (PreviewThread.run platform cookies (.exn m) second = ([.error m], 1) ↔
        ¬(platform = "YouTube" ∧ is_auth_required_error m = true ∧ cookies = true))
    ∧ (∀ first, (PreviewThread.run platform cookies first second).2 ≤ 2)
    ∧ (DownloadThread.run true platform cookies fd sd =
          (fd.events.map .progress ++ dlTrace sd, 2) ↔
        (platform = "YouTube" ∧ is_auth_required_error m2 = true ∧ cookies = true))
    ∧ (DownloadThread.run true platform cookies fd sd =
          (fd.events.map .progress ++ [.error m2], 1) ↔
        ¬(platform = "YouTube" ∧ is_auth_required_error m2 = true ∧ cookies = true))
    ∧ (∀ ff fd', (DownloadThread.run ff platform cookies fd' sd).2 ≤ 2) := by
  have hr := retry_condition_iff platform m cookies
  have hr2 := retry_condition_iff platform m2 cookies
  refine ⟨?_, ?_, ?_, ?_, ?_, ?_⟩
  · rw [← hr]
    cases hb : retry_condition platform m cookies <;>
      simp [PreviewThread.run, hb]
  · rw [← hr]
    cases hb : retry_condition platform m cookies <;>
      simp [PreviewThread.run, hb]
  · intro first
    cases first with
    | ok i => simp [PreviewThread.run]
    | exn msg =>
      cases hb : retry_condition platform msg cookies <;>
        simp [PreviewThread.run, hb]
  · rw [← hr2]
    cases hb : retry_condition platform m2 cookies <;>
      simp [DownloadThread.run, hfd, hb]
  · rw [← hr2]
    cases hb : retry_condition platform m2 cookies <;>
      simp [DownloadThread.run, hfd, hb]
  · intro ff fd'
    cases ff with
    | false =>
      cases hb : retry_condition platform ffmpeg_missing_msg cookies <;>
        simp [DownloadThread.run, hb]
    | true =>
      cases hm : fd'.failMsg with
      | none => simp [DownloadThread.run, hm]
      | some mm =>
        cases hb : retry_condition platform mm cookies <;>
          simp [DownloadThread.run, hm, hb]

theorem C4_retry_policy_witness :
    PreviewThread.run ("YouTube") true (.exn ("login required")) (.exn ("still failing")) =
      ([.error ("still failing")], 2)
    ∧ DownloadThread.run true ("YouTube") true ⟨[], some ("login required")⟩ ⟨[], none⟩ =
      ([.finished], 2) := by
  have h := C4_retry_policy ("YouTube") true ("login required") (.exn ("still failing"))
    ⟨[], some ("login required")⟩ ⟨[], none⟩ "login required" rfl
  constructor
  · have h1 := h.1.mpr ⟨rfl, by decide, rfl⟩
    simpa [previewTerminal] using h1
  · have h2 := h.2.2.2.1.mpr ⟨rfl, by decide, rfl⟩
    simpa [dlTrace] using h2

/- ### C5 -/

/-- Claim C5: a download task run with the muxing executable absent
delivers the FatalPrecondition failure (the ffmpeg-missing message) as
its sole signal — zero progress events — and performs zero yt-dlp
download invocations, for every platform, cookie state and would-be
download behaviour. -/
theorem C5_ffmpeg_missing (platform : String) (cookies : Bool) (first second : DlBehavior) :
    DownloadThread.run false platform cookies first second =
      ([.error ffmpeg_missing_msg], 0) := by
  simp [DownloadThread.run, retry_condition_ffmpeg_false]

/- ### C6 -/

/-- Claim C6: every message containing ("login required") (after
lower-casing) is classified AuthRequired, and the NotFound classification
is set for it as well. -/
theorem C6_login_required_classification (e : String)
    (h : strContains (pyLower e) "login required" = true) :
    is_auth_required_error e = true ∧ is_not_found_error e = true := by
  refine ⟨?_, ?_⟩
  · simp [is_auth_required_error, h]
  · unfold is_not_found_error
    rw [List.any_eq_true]
    exact ⟨"login required", by decide, h⟩

theorem C6_login_required_classification_witness :
    is_auth_required_error ("ERROR: Login Required to access") = true ∧
    is_not_found_error ("ERROR: Login Required to access") = true :=
  C6_login_required_classification ("ERROR: Login Required to access") (by decide)

/- ### C7 -/

/-- Claim C7: every message containing ("private video") (after
lower-casing) classifies as NotFound, and the classifier is total: any
message matching no phrase yields Generic, and every message yields
either Generic or NotFound. -/
theorem C7_private_video_total (e : String) :
    (strContains (pyLower e) "private video" = true →
      classify e = .notFound (is_auth_required_error e))
    ∧ (is_not_found_error e = false → classify e = .generic)
    ∧ (classify e = .generic ∨ ∃ b, classify e = .notFound b) := by
  refine ⟨?_, ?_, ?_⟩
  · intro h
    have hn : is_not_found_error e = true := by
      unfold is_not_found_error
      rw [List.any_eq_true]
      exact ⟨"private video", by decide, h⟩
    simp [classify, hn]
  · intro h
    simp [classify, h]
  · by_cases hn : is_not_found_error e = true
    · exact Or.inr ⟨is_auth_required_error e, by simp [classify, hn]⟩
    · rw [Bool.not_eq_true] at hn
      exact Or.inl (by simp [classify, hn])

theorem C7_private_video_total_witness :
    classify ("This is a Private Video") = .notFound false ∧ classify ("xyz") = .generic := by
  constructor
  · have h := (C7_private_video_total ("This is a Private Video")).1 (by decide)
    rw [h]
    have ha : is_auth_required_error ("This is a Private Video") = false := by decide
    rw [ha]
  · exact (C7_private_video_total ("xyz")).2.1 (by decide)

/- ### C8 -/

/-- Claim C8 is false on the code: a YouTube playlist result that carries
the explicit flag but holds exactly one entry is a Collection by the
claim (and by the preview handler), yet `download_video` decides
`is_playlist` purely by `len(self.video_info) > 1` and treats the
download request as a single item. -/
theorem C8_counterexample :
    spec_isCollection ("YouTube")
      ⟨some ("P"), some ("playlist"), true, [⟨some ("t"), some ("u")⟩]⟩ = true
    ∧ (handle_preview_info ("YouTube")
        ⟨some ("P"), some ("playlist"), true, [⟨some ("t"), some ("u")⟩]⟩).mode = .playlist
    ∧ download_video_is_playlist ("YouTube")
        (handle_preview_info ("YouTube")
          ⟨some ("P"), some ("playlist"), true, [⟨some ("t"), some ("u")⟩]⟩) = false := by
  decide

/-- Claim C8 amended: a preview result is treated as a Collection iff the
platform is YouTube and the extraction result both carries the `entries`
key and is flagged `_type == 'playlist'`; a download request is treated
as a Collection iff the platform is YouTube and the retained preview
item list has more than one element — the explicit flag itself is not
consulted at download time. -/
theorem C8_amended (platform : String) (info : Info) (st : PreviewState) :
    ((handle_preview_info platform info).mode = .playlist ↔
      (platform = "YouTube" ∧ info.hasEntries = true ∧ info.typ = some ("playlist")))
    ∧ (download_video_is_playlist platform st = true ↔
        (platform = "YouTube" ∧ 1 < st.video_info_len)) := by
  constructor
  · by_cases hb : (platform == "YouTube" && info.hasEntries
        && (info.typ == some ("playlist"))) = true
    · rw [handle_preview_info, if_pos hb]
      simp only [Bool.and_eq_true, beq_iff_eq] at hb
      simp [hb.1.1, hb.1.2, hb.2]
    · rw [handle_preview_info, if_neg hb]
      constructor
      · intro hmode
        exact absurd hmode (by simp)
      · rintro ⟨h1, h2, h3⟩
        exact absurd (by simp [h1, h2, h3]) hb
  · simp [download_video_is_playlist, and_assoc]

/- ### C9 -/

/-- A download-thread signal is terminal when it is `finished` or an
error, and non-terminal when it is a progress event. -/
def isTerminalD : DSignal → Bool
  | .progress _ => false
  | .finished => true
  | .error _ => true

/-- Claim C9: every preview run emits exactly one signal (its terminal
outcome), and every download run's trace consists of zero or more
progress events followed by exactly one terminal signal. -/
theorem C9_exactly_one_terminal (platform : String) (cookies : Bool)
    (pfirst psecond : Outcome Info) (ffmpegExists : Bool) (dfirst dsecond : DlBehavior) :
    (PreviewThread.run platform cookies pfirst psecond).1.length = 1
    ∧ ∃ pre t, (DownloadThread.run ffmpegExists platform cookies dfirst dsecond).1 = pre ++ [t]
        ∧ isTerminalD t = true ∧ ∀ s ∈ pre, isTerminalD s = false := by
  constructor
  · cases pfirst with
    | ok i => simp [PreviewThread.run]
    | exn msg =>
      cases hb : retry_condition platform msg cookies <;>
        simp [PreviewThread.run, hb]
  · have hprog : ∀ (l : List RawEvent) (s : DSignal),
        s ∈ l.map DSignal.progress → isTerminalD s = false := by
      intro l s hs
      rcases List.mem_map.mp hs with ⟨d, _, rfl⟩
      rfl
    cases ffmpegExists with
    | false =>
      refine ⟨[], .error ffmpeg_missing_msg, ?_, rfl, by simp⟩
      simp [DownloadThread.run, retry_condition_ffmpeg_false]
    | true =>
      cases hm : dfirst.failMsg with
      | none =>
        refine ⟨dfirst.events.map .progress, .finished, ?_, rfl, hprog dfirst.events⟩
        simp [DownloadThread.run, hm]
      | some m =>
        cases hb : retry_condition platform m cookies with
        | false =>
          refine ⟨dfirst.events.map .progress, .error m, ?_, rfl, hprog dfirst.events⟩
          simp [DownloadThread.run, hm, hb]
        | true =>
          cases hm2 : dsecond.failMsg with
          | none =>
            refine ⟨dfirst.events.map .progress ++ dsecond.events.map .progress,
              .finished, ?_, rfl, ?_⟩
            · simp [DownloadThread.run, hm, hb, dlTrace, hm2]
            · intro s hs
              rcases List.mem_append.mp hs with hs | hs
              · exact hprog dfirst.events s hs
              · exact hprog dsecond.events s hs
          | some m2 =>
            refine ⟨dfirst.events.map .progress ++ dsecond.events.map .progress,
              .error m2, ?_, rfl, ?_⟩
            · simp [DownloadThread.run, hm, hb, dlTrace, hm2]
            · intro s hs
              rcases List.mem_append.mp hs with hs | hs
              · exact hprog dfirst.events s hs
              · exact hprog dsecond.events s hs

theorem C9_exactly_one_terminal_witness :
    (PreviewThread.run ("YouTube") false (.exn ("not found")) (.ok ⟨none, none, false, []⟩)).1.length = 1
    ∧ ∃ pre t, (DownloadThread.run true ("YouTube") false
        ⟨[⟨"downloading", .parsed 50, none⟩], none⟩ ⟨[], none⟩).1 = pre ++ [t]
        ∧ isTerminalD t = true ∧ ∀ s ∈ pre, isTerminalD s = false :=
  C9_exactly_one_terminal ("YouTube") false (.exn ("not found")) (.ok ⟨none, none, false, []⟩)
    true ⟨[⟨"downloading", .parsed 50, none⟩], none⟩ ⟨[], none⟩

/- ### C10 -/

/-- Claim C10: with a non-empty candidate list the selected thumbnail is
the URL of a candidate of greatest declared height (in particular, from
heights 480, 1080, 360 the 1080 entry is selected); with no candidate
list (or an empty one, which Python treats as falsy) the single
unconditional `thumbnail` field is used; with neither, no thumbnail. -/
theorem C10_best_thumbnail (i : TInfo) (t : Thumb) (ts : List Thumb)
    (h : i.thumbnails = some (t :: ts)) :
    (∃ c ∈ t :: ts, get_best_thumbnail (some i) = c.url
        ∧ ∀ x ∈ t :: ts, thumbKey x ≤ thumbKey c)
    ∧ (∀ j : TInfo, j.thumbnails = none → get_best_thumbnail (some j) = j.thumbnail)
    ∧ (∀ j : TInfo, j.thumbnails = some [] → get_best_thumbnail (some j) = j.thumbnail)
    ∧ get_best_thumbnail none = none
    ∧ get_best_thumbnail (some ⟨some [⟨some ("u480"), some 480⟩, ⟨some ("u1080"), some 1080⟩,
        ⟨some ("u360"), some 360⟩], none⟩) = some ("u1080") := by
  refine ⟨?_, ?_, ?_, rfl, by decide⟩
  · have hp := List.perm_insertionSort thumbGE (t :: ts)
    have hsorted := List.sorted_insertionSort thumbGE (t :: ts)
    rcases hs : List.insertionSort thumbGE (t :: ts) with _ | ⟨b, rest⟩
    · rw [hs] at hp
      exact absurd hp.symm.eq_nil (by simp)
    · rw [hs] at hp hsorted
      refine ⟨b, hp.mem_iff.mp (List.mem_cons_self b rest), ?_, ?_⟩
      · simp only [get_best_thumbnail, h, hs]
      · intro x hx
        have hx' : x ∈ b :: rest := hp.mem_iff.mpr hx
        rcases List.mem_cons.mp hx' with rfl | hxr
        · exact le_refl _
        · exact (List.sorted_cons.mp hsorted).1 x hxr
  · intro j hj
    simp [get_best_thumbnail, hj]
  · intro j hj
    simp [get_best_thumbnail, hj]

theorem C10_best_thumbnail_witness :
    get_best_thumbnail (some ⟨some [⟨some ("u480"), some 480⟩, ⟨some ("u1080"), some 1080⟩,
      ⟨some ("u360"), some 360⟩], none⟩) = some ("u1080") :=
  (C10_best_thumbnail
    ⟨some [⟨some ("u480"), some 480⟩, ⟨some ("u1080"), some 1080⟩, ⟨some ("u360"), some 360⟩], none⟩
    ⟨some ("u480"), some 480⟩ [⟨some ("u1080"), some 1080⟩, ⟨some ("u360"), some 360⟩]
    rfl).2.2.2.2
